import Mathlib

/-!
Shallow embedding of the Ghostwriter-AI revision/suggestion state machine
(`src/App.tsx` together with the generator service in `src/unnamed/part_000`
and the data model of `src/types.ts`).

The React component's `useState` cells become fields of `AppState`; each
handler becomes a pure state-transition function.  Nondeterministic inputs
of the real program — `Date.now()`, the results of the asynchronous
generator calls (`generateInitialDraft`, `generateSuggestions`,
`applySuggestions`) — are passed in as explicit parameters: a generator
call that throws is modelled as `Except.error ()`, a successful one as
`Except.ok value`.  The JavaScript `Set<string>` of selected suggestion
ids is modelled as a duplicate-free `List String` with membership via
`List.contains`; `Set.add` appends, `Set.delete` filters.
-/

/-- `Platform` from `src/types.ts`. -/
inductive Platform where
  | Generic
  | LinkedIn
  | Facebook
  | Reddit
  | Twitter
deriving DecidableEq, Repr

/-- `Revision` from `src/types.ts`; the `Date` timestamp is modelled as
milliseconds since the epoch (a `Nat`), matching `Date.now()`. -/
structure Revision where
  id : String
  content : String
  timestamp : Nat
  platform : Platform
deriving DecidableEq, Repr

/-- `Suggestion` from `src/types.ts`. -/
structure Suggestion where
  id : String
  originalText : String
  suggestedChange : String
  reason : String
deriving DecidableEq, Repr

/-- The `useState`/`useRef` cells of the `App` component in `src/App.tsx`.
The purely presentational flags (`isGeneratingDraft`,
`isFetchingSuggestions`, `loadingMessage`) are omitted: no claim mentions
them and they carry no data. -/
structure AppState where
  revisions : List Revision
  suggestions : List Suggestion
  selectedSuggestions : List String
  error : Option String
  historyPast : List String
  historyFuture : List String
  lastSaveTime : Nat
  prevRevisionsLength : Nat
deriving DecidableEq, Repr

/-- `currentRevision` in `src/App.tsx`:
`revisions.length > 0 ? revisions[revisions.length - 1] : null`. -/
def currentRevision (s : AppState) : Option Revision :=
  if s.revisions.length > 0 then s.revisions.getLast? else none

/-- The `useEffect` on `revisions.length` in `src/App.tsx` (lines 27–33):
when the sequence grew past the remembered length, clear both history
stacks and remember the new length; otherwise do nothing. -/
def revisionResetEffect (s : AppState) : AppState :=
  if s.revisions.length > s.prevRevisionsLength then
    { s with historyPast := [], historyFuture := [],
             prevRevisionsLength := s.revisions.length }
  else s

/-- `handleGenerateDraft` in `src/App.tsx`.  `result` is the outcome of the
awaited `generateInitialDraft` call (`src/unnamed/part_000` returns
`result.text` unchecked, so an empty string is a possible `ok` value);
`newId` stands for `Date.now().toString()` and `now` for the timestamp. -/
def handleGenerateDraft (s : AppState) (result : Except Unit String)
    (newId : String) (now : Nat) (platform : Platform) : AppState :=
  match result with
  | .ok content =>
      { s with
        revisions := [{ id := newId, content := content, timestamp := now,
                        platform := platform }],
        suggestions := [], selectedSuggestions := [], error := none }
  | .error _ =>
      { s with error := some "Failed to generate draft. Please check your API key and try again." }

/-- `fetchSuggestions` in `src/App.tsx` (lines 52–64).  `rev` is the
revision argument; `genResult` is the outcome of the awaited
`generateSuggestions` call.  The second component of the result records
whether the external generator was actually invoked.  On a thrown error
the catch block only logs, so the state is unchanged. -/
def fetchSuggestions (s : AppState) (rev : Option Revision)
    (genResult : Except Unit (List Suggestion)) : AppState × Bool :=
  match rev with
  | none => (s, false)
  | some revision =>
    if revision.content.length < 50 then (s, false)
    else
      match genResult with
      | .ok newSuggestions => ({ s with suggestions := newSuggestions }, true)
      | .error _ => (s, true)

/-- `handleApplySuggestions` in `src/App.tsx` (lines 76–96).
`mergeResult` is the outcome of the awaited `applySuggestions` call;
`newId`/`now` stand for `Date.now()`. -/
def handleApplySuggestions (s : AppState) (mergeResult : Except Unit String)
    (newId : String) (now : Nat) : AppState :=
  match currentRevision s with
  | none => s
  | some cur =>
    if s.selectedSuggestions.isEmpty then s
    else
      match mergeResult with
      | .ok newContent =>
          { s with
            revisions := s.revisions ++
              [{ id := newId, content := newContent, timestamp := now,
                 platform := cur.platform }],
            selectedSuggestions := [], suggestions := [], error := none }
      | .error _ =>
          { s with error := some "Failed to apply suggestions. Please try again." }

/-- `handleToggleSuggestion` in `src/App.tsx` (lines 98–108): copy the set,
delete the id if present, otherwise add it.  No check against the current
suggestion batch is made. -/
def handleToggleSuggestion (s : AppState) (suggestionId : String) : AppState :=
  if s.selectedSuggestions.contains suggestionId then
    { s with selectedSuggestions :=
        s.selectedSuggestions.filter (fun x => x ≠ suggestionId) }
  else
    { s with selectedSuggestions := s.selectedSuggestions ++ [suggestionId] }

/-- `handleContentChange` in `src/App.tsx` (lines 110–123): if more than
1000 ms elapsed since the last snapshot, push the current content on the
past stack, clear the future stack and remember the time; in every case
replace the last revision's content in place (the unconditional
`setRevisions` of the source is written out in both branches). -/
def handleContentChange (s : AppState) (now : Nat) (newContent : String) :
    AppState :=
  match currentRevision s with
  | none => s
  | some cur =>
    if 1000 < now - s.lastSaveTime then
      { s with historyPast := s.historyPast ++ [cur.content],
               historyFuture := ([] : List String),
               lastSaveTime := now,
               revisions :=
                 s.revisions.dropLast ++ [{ cur with content := newContent }] }
    else
      { s with revisions :=
          s.revisions.dropLast ++ [{ cur with content := newContent }] }

/-- `handleUndo` in `src/App.tsx` (lines 125–136). -/
def handleUndo (s : AppState) : AppState :=
  match currentRevision s, s.historyPast.getLast? with
  | some cur, some previousContent =>
      { s with historyFuture := cur.content :: s.historyFuture,
               historyPast := s.historyPast.dropLast,
               revisions := s.revisions.dropLast ++
                 [{ cur with content := previousContent }] }
  | _, _ => s

/-- `handleRedo` in `src/App.tsx` (lines 138–149). -/
def handleRedo (s : AppState) : AppState :=
  match currentRevision s, s.historyFuture with
  | some cur, nextContent :: rest =>
      { s with historyPast := s.historyPast ++ [cur.content],
               historyFuture := rest,
               revisions := s.revisions.dropLast ++
                 [{ cur with content := nextContent }] }
  | _, _ => s

/-- A sequence of manual edits, each tagged with its `Date.now()` value. -/
def recordEdits : AppState → List (Nat × String) → AppState
  | s, [] => s
  | s, (t, c) :: rest => recordEdits (handleContentChange s t c) rest

/-- The timestamps satisfy the code's snapshot condition
`now - lastSaveTime > 1000` at every step, taking the previous timestamp
as the running `lastSaveTime` (which is what the code stores on a push). -/
def wellSpaced : Nat → List (Nat × String) → Bool
  | _, [] => true
  | last, (t, _) :: rest => decide (1000 < t - last) && wellSpaced t rest

-- Concrete sample data used by witnesses and counterexamples

/-- A sample revision whose content is below the 50-character threshold. -/
def shortRev : Revision :=
  { id := "1", content := "hello world", timestamp := 0, platform := .Generic }

/-- A sample revision whose content is at least 50 characters long. -/
def longRev : Revision :=
  { id := "2",
    content := "aaaaaaaaaaaaaaaaaaaaaaaaaaaaaaaaaaaaaaaaaaaaaaaaaa",
    timestamp := 0, platform := .LinkedIn }

/-- A sample suggestion. -/
def sampleSug : Suggestion :=
  { id := "s1", originalText := "hello", suggestedChange := "hi",
    reason := "shorter" }

/-- A sample state with one revision, one suggestion selected. -/
def sampleState : AppState :=
  { revisions := [shortRev], suggestions := [sampleSug],
    selectedSuggestions := ["s1"], error := none,
    historyPast := [], historyFuture := [], lastSaveTime := 0,
    prevRevisionsLength := 1 }

/-- A state with an empty revision sequence (before the first draft). -/
def emptyState : AppState :=
  { revisions := [], suggestions := [], selectedSuggestions := [],
    error := none, historyPast := [], historyFuture := [], lastSaveTime := 0,
    prevRevisionsLength := 0 }

/-- A state whose revision sequence just grew past the remembered length,
with non-empty history stacks. -/
def grownState : AppState :=
  { revisions := [shortRev], suggestions := [], selectedSuggestions := [],
    error := none, historyPast := ["a"], historyFuture := ["b"],
    lastSaveTime := 0, prevRevisionsLength := 0 }

/-- A state like `sampleState` but with a non-empty past stack, ready for
an undo. -/
def undoReadyState : AppState :=
  { revisions := [shortRev], suggestions := [sampleSug],
    selectedSuggestions := ["s1"], error := none,
    historyPast := ["before"], historyFuture := [], lastSaveTime := 0,
    prevRevisionsLength := 1 }

-- Basic lemmas about the embedding

theorem currentRevision_eq_getLast? (s : AppState) :
    currentRevision s = s.revisions.getLast? := by
  cases h : s.revisions with
  | nil => simp [currentRevision, h]
  | cons a l => simp [currentRevision, h]

theorem currentRevision_isSome (s : AppState) (h : s.revisions ≠ []) :
    ∃ cur, currentRevision s = some cur := by
  rw [currentRevision_eq_getLast?]
  exact Option.isSome_iff_exists.mp (List.getLast?_isSome.mpr h)

theorem handleContentChange_push (s : AppState) (t : Nat) (c : String)
    (cur : Revision) (hcur : currentRevision s = some cur)
    (ht : 1000 < t - s.lastSaveTime) :
    handleContentChange s t c =
      { s with historyPast := s.historyPast ++ [cur.content],
               historyFuture := [],
               lastSaveTime := t,
               revisions := s.revisions.dropLast ++ [{ cur with content := c }] } := by
  unfold handleContentChange
  rw [hcur]
  simp [ht]

theorem handleContentChange_skip (s : AppState) (t : Nat) (c : String)
    (cur : Revision) (hcur : currentRevision s = some cur)
    (ht : ¬ 1000 < t - s.lastSaveTime) :
    handleContentChange s t c =
      { s with revisions := s.revisions.dropLast ++ [{ cur with content := c }] } := by
  unfold handleContentChange
  rw [hcur]
  simp [ht]

theorem handleContentChange_length (s : AppState) (t : Nat) (c : String) :
    (handleContentChange s t c).revisions.length = s.revisions.length := by
  cases hcur : currentRevision s with
  | none => unfold handleContentChange; rw [hcur]
  | some cur =>
    have hne : s.revisions ≠ [] := by
      rw [currentRevision_eq_getLast?] at hcur
      intro hnil
      rw [hnil] at hcur
      simp at hcur
    have hpos : 0 < s.revisions.length := List.length_pos.mpr hne
    by_cases ht : 1000 < t - s.lastSaveTime
    · rw [handleContentChange_push s t c cur hcur ht]
      simp
      omega
    · rw [handleContentChange_skip s t c cur hcur ht]
      simp
      omega

theorem handleContentChange_prevLength (s : AppState) (t : Nat) (c : String) :
    (handleContentChange s t c).prevRevisionsLength = s.prevRevisionsLength := by
  cases hcur : currentRevision s with
  | none => unfold handleContentChange; rw [hcur]
  | some cur =>
    by_cases ht : 1000 < t - s.lastSaveTime
    · rw [handleContentChange_push s t c cur hcur ht]
    · rw [handleContentChange_skip s t c cur hcur ht]

-- C9

/-- C9: when the current revision's content is shorter than 50 characters,
`fetchSuggestions` returns without calling the external generator and the
whole state — in particular the existing suggestion batch — is unchanged. -/
theorem fetchSuggestions_below_threshold (s : AppState) (rev : Revision)
    (res : Except Unit (List Suggestion)) (h : rev.content.length < 50) :
    fetchSuggestions s (some rev) res = (s, false) := by
  simp [fetchSuggestions, h]

/-- Witness for C9 at a concrete state. -/
theorem fetchSuggestions_below_threshold_witness :
    shortRev.content.length < 50 ∧
    fetchSuggestions sampleState (some shortRev) (.ok [sampleSug]) =
      (sampleState, false) :=
  ⟨by decide,
   fetchSuggestions_below_threshold sampleState shortRev (.ok [sampleSug])
     (by decide)⟩

-- C10

/-- C10: when `applySelected` succeeds (non-empty selection, current
revision exists), the revision list becomes exactly the old list with one
new revision appended; the new revision carries the superseded revision's
platform tag, and the old prefix — every prior revision, in order — is
untouched. -/
theorem applySuggestions_frame (s : AppState) (cur : Revision)
    (newContent newId : String) (now : Nat)
    (hcur : currentRevision s = some cur)
    (hsel : s.selectedSuggestions ≠ []) :
    (handleApplySuggestions s (.ok newContent) newId now).revisions =
      s.revisions ++ [{ id := newId, content := newContent, timestamp := now,
                        platform := cur.platform }] ∧
    (handleApplySuggestions s (.ok newContent) newId now).revisions.take
      s.revisions.length = s.revisions := by
  unfold handleApplySuggestions
  rw [hcur]
  simp [List.isEmpty_iff, hsel]

/-- Witness for C10 at a concrete state. -/
theorem applySuggestions_frame_witness :
    currentRevision sampleState = some shortRev ∧
    sampleState.selectedSuggestions ≠ [] ∧
    ((handleApplySuggestions sampleState (.ok "hi world") "9" 5).revisions =
      sampleState.revisions ++
        [{ id := "9", content := "hi world", timestamp := 5,
           platform := shortRev.platform }] ∧
     (handleApplySuggestions sampleState (.ok "hi world") "9" 5).revisions.take
       sampleState.revisions.length = sampleState.revisions) :=
  ⟨by decide, by decide,
   applySuggestions_frame sampleState shortRev "hi world" "9" 5 (by decide)
     (by decide)⟩

-- C3

/-- C3: `applySelected` is all-or-nothing.  With a current revision and a
non-empty selection: if the merge call fails, the revision list, the
suggestion batch and the selection are unchanged and a user-visible error
is set; if it succeeds, a new revision is appended and both the suggestion
batch and the selection are cleared. -/
theorem applySuggestions_transactional (s : AppState) (cur : Revision)
    (newContent newId : String) (now : Nat)
    (hcur : currentRevision s = some cur)
    (hsel : s.selectedSuggestions ≠ []) :
    ((handleApplySuggestions s (.error ()) newId now).revisions = s.revisions ∧
     (handleApplySuggestions s (.error ()) newId now).suggestions =
       s.suggestions ∧
     (handleApplySuggestions s (.error ()) newId now).selectedSuggestions =
       s.selectedSuggestions ∧
     (handleApplySuggestions s (.error ()) newId now).error =
       some "Failed to apply suggestions. Please try again.") ∧
    ((handleApplySuggestions s (.ok newContent) newId now).revisions =
       s.revisions ++
         [{ id := newId, content := newContent, timestamp := now,
            platform := cur.platform }] ∧
     (handleApplySuggestions s (.ok newContent) newId now).suggestions = [] ∧
     (handleApplySuggestions s (.ok newContent) newId now).selectedSuggestions
       = []) := by
  unfold handleApplySuggestions
  rw [hcur]
  simp [List.isEmpty_iff, hsel]

/-- Witness for C3 at a concrete state. -/
theorem applySuggestions_transactional_witness :
    currentRevision sampleState = some shortRev ∧
    sampleState.selectedSuggestions ≠ [] ∧
    (handleApplySuggestions sampleState (.error ()) "9" 5).revisions =
      sampleState.revisions ∧
    (handleApplySuggestions sampleState (.ok "hi world") "9" 5).suggestions
      = [] :=
  ⟨by decide, by decide,
   (applySuggestions_transactional sampleState shortRev "hi world" "9" 5
      (by decide) (by decide)).1.1,
   (applySuggestions_transactional sampleState shortRev "hi world" "9" 5
      (by decide) (by decide)).2.2.1⟩

-- C8

/-- C8 counterexample: the claim says `startDocument` fails when the
generator returns empty content and never installs a revision with empty
content; but `generateInitialDraft` returns `result.text` unchecked, so on
an empty-content success `handleGenerateDraft` installs a revision whose
content is the empty string and reports no error. -/
theorem startDocument_empty_content_cex :
    ((handleGenerateDraft emptyState (.ok "") "1" 0 .Generic).revisions.map
       Revision.content = [""]) ∧
    (handleGenerateDraft emptyState (.ok "") "1" 0 .Generic).error = none := by
  decide

/-- C8 amended: `startDocument` fails with a user-visible error exactly
when the generator call errors, and in that case the prior state
(revisions, suggestions, selection) is left untouched so the user may
retry; any successful result — including empty content — is installed as
a single fresh revision. -/
theorem startDocument_spec (s : AppState) (newId : String) (now : Nat)
    (p : Platform) (c : String) :
    ((handleGenerateDraft s (.error ()) newId now p).revisions = s.revisions ∧
     (handleGenerateDraft s (.error ()) newId now p).suggestions =
       s.suggestions ∧
     (handleGenerateDraft s (.error ()) newId now p).selectedSuggestions =
       s.selectedSuggestions ∧
     (handleGenerateDraft s (.error ()) newId now p).error =
       some "Failed to generate draft. Please check your API key and try again.") ∧
    (handleGenerateDraft s (.ok c) newId now p).revisions =
      [{ id := newId, content := c, timestamp := now, platform := p }] :=
  ⟨⟨rfl, rfl, rfl, rfl⟩, rfl⟩

-- C1

/-- C1 counterexample: a completed background suggestion fetch replaces
the batch but does not clear the selection set — here the selection
`["s1"]` survives the arrival of a new batch that even contains the same
id `"s1"`, contradicting the claim that it is cleared. -/
theorem fetchSuggestions_selection_cex :
    ((fetchSuggestions
        { revisions := [longRev], suggestions := [sampleSug],
          selectedSuggestions := ["s1"], error := none, historyPast := [],
          historyFuture := [], lastSaveTime := 0, prevRevisionsLength := 1 }
        (some longRev)
        (.ok [{ id := "s1", originalText := "x", suggestedChange := "y",
                reason := "z" }])).1).selectedSuggestions ≠ [] := by
  decide

/-- C1 amended: a completed background suggestion fetch never touches the
selection set — whatever batch arrives (or none, on error or below the
length threshold), `fetchSuggestions` leaves `selectedSuggestions` exactly
as it was; the selection is only cleared by draft generation and by
applying suggestions. -/
theorem fetchSuggestions_preserves_selection (s : AppState)
    (rev : Option Revision) (res : Except Unit (List Suggestion)) :
    ((fetchSuggestions s rev res).1).selectedSuggestions =
      s.selectedSuggestions := by
  unfold fetchSuggestions
  cases rev with
  | none => rfl
  | some r =>
    by_cases h : r.content.length < 50
    · simp [h]
    · cases res with
      | ok l => simp [h]
      | error e => simp [h]

-- C7

/-- C7 counterexample: `handleToggleSuggestion` never checks the current
batch; toggling an id that belongs to no suggestion (the batch is empty)
adds it to the selection set instead of being a no-op. -/
theorem toggleSelection_stale_cex :
    (handleToggleSuggestion
        { revisions := [shortRev], suggestions := [],
          selectedSuggestions := [], error := none, historyPast := [],
          historyFuture := [], lastSaveTime := 0, prevRevisionsLength := 1 }
        "ghost").selectedSuggestions ≠ [] := by
  decide

/-- C7 amended: `toggleSelection(id)` flips the membership of `id` in the
selection set unconditionally — also for ids outside the current batch —
and never raises an error; every other piece of state is unchanged.
(Stale ids are harmless only because `applySelected` later filters the
selection through the current batch.) -/
theorem toggleSelection_spec (s : AppState) (sid : String) :
    ((handleToggleSuggestion s sid).selectedSuggestions.contains sid =
      !(s.selectedSuggestions.contains sid)) ∧
    (handleToggleSuggestion s sid).revisions = s.revisions ∧
    (handleToggleSuggestion s sid).suggestions = s.suggestions ∧
    (handleToggleSuggestion s sid).historyPast = s.historyPast ∧
    (handleToggleSuggestion s sid).historyFuture = s.historyFuture ∧
    (handleToggleSuggestion s sid).error = s.error := by
  unfold handleToggleSuggestion
  by_cases h : sid ∈ s.selectedSuggestions
  · simp [h, List.mem_filter]
  · simp [h]

-- C2

/-- C2 counterexample: a manual edit recorded 500 ms after the last
snapshot push (inside the 1000 ms throttle window) does not clear the
redo stack — the future stack is still non-empty afterwards, because the
`setHistoryFuture([])` of the source sits inside the throttle guard. -/
theorem recordEdit_future_cex :
    (handleContentChange
        { revisions := [shortRev], suggestions := [],
          selectedSuggestions := [], error := none, historyPast := ["p"],
          historyFuture := ["x"], lastSaveTime := 1000,
          prevRevisionsLength := 1 }
        1500 "edited").historyFuture ≠ [] := by
  decide

/-- C2 amended: with a current revision, a recorded manual edit clears the
future (redo) stack exactly when it falls outside the 1000 ms throttle
window (and so pushes a snapshot); an edit inside the window leaves the
future stack unchanged. -/
theorem recordEdit_future_spec (s : AppState) (t : Nat) (c : String)
    (cur : Revision) (hcur : currentRevision s = some cur) :
    (1000 < t - s.lastSaveTime →
      (handleContentChange s t c).historyFuture = []) ∧
    (¬ 1000 < t - s.lastSaveTime →
      (handleContentChange s t c).historyFuture = s.historyFuture) := by
  constructor
  · intro ht
    rw [handleContentChange_push s t c cur hcur ht]
  · intro ht
    rw [handleContentChange_skip s t c cur hcur ht]

/-- Witness for the amended C2 at a concrete state. -/
theorem recordEdit_future_spec_witness :
    currentRevision sampleState = some shortRev ∧
    1000 < 5000 - sampleState.lastSaveTime ∧
    (handleContentChange sampleState 5000 "z").historyFuture = [] :=
  ⟨by decide, by decide,
   (recordEdit_future_spec sampleState 5000 "z" shortRev (by decide)).1
     (by decide)⟩

-- C4

/-- C4: with a current revision and a non-empty past stack, `undo`
followed immediately by `redo` restores the current revision's content to
a string equal to the content before `undo` was called. -/
theorem undo_redo_roundtrip (s : AppState) (cur : Revision)
    (hcur : currentRevision s = some cur) (hpast : s.historyPast ≠ []) :
    (currentRevision (handleRedo (handleUndo s))).map Revision.content =
      some cur.content := by
  obtain ⟨prev, hprev⟩ :=
    Option.isSome_iff_exists.mp (List.getLast?_isSome.mpr hpast)
  have h1 : handleUndo s =
      { s with historyFuture := cur.content :: s.historyFuture,
               historyPast := s.historyPast.dropLast,
               revisions := s.revisions.dropLast ++
                 [{ cur with content := prev }] } := by
    unfold handleUndo
    rw [hcur, hprev]
  have h2 : currentRevision (handleUndo s) =
      some { cur with content := prev } := by
    rw [h1, currentRevision_eq_getLast?]
    exact List.getLast?_concat _
  have h3 : (handleUndo s).historyFuture = cur.content :: s.historyFuture := by
    rw [h1]
  unfold handleRedo
  rw [h2, h3]
  rw [currentRevision_eq_getLast?]
  simp [List.getLast?_concat]

/-- Witness for C4 at a concrete state. -/
theorem undo_redo_roundtrip_witness :
    currentRevision undoReadyState = some shortRev ∧
    undoReadyState.historyPast ≠ [] ∧
    (currentRevision (handleRedo (handleUndo undoReadyState))).map
      Revision.content = some shortRev.content :=
  ⟨by decide, by decide,
   undo_redo_roundtrip undoReadyState shortRev (by decide) (by decide)⟩

-- C5

/-- C5: whenever the revision sequence is longer than the remembered
length (i.e. its length increased — an AI-driven append or the initial
draft), the reset effect leaves both history stacks empty; and an
in-place content change (which preserves the sequence length) never
triggers the reset — with an up-to-date remembered length the effect is
the identity after `handleContentChange`. -/
theorem revisionReset_spec (s : AppState) (t : Nat) (c : String) :
    (s.prevRevisionsLength < s.revisions.length →
      (revisionResetEffect s).historyPast = [] ∧
      (revisionResetEffect s).historyFuture = []) ∧
    (s.prevRevisionsLength = s.revisions.length →
      revisionResetEffect (handleContentChange s t c) =
        handleContentChange s t c) := by
  constructor
  · intro h
    simp [revisionResetEffect, h]
  · intro h
    unfold revisionResetEffect
    rw [handleContentChange_length, handleContentChange_prevLength, ← h]
    simp

/-- Witness for C5 at concrete states (one for each conjunct). -/
theorem revisionReset_spec_witness :
    grownState.prevRevisionsLength < grownState.revisions.length ∧
    (revisionResetEffect grownState).historyPast = [] ∧
    sampleState.prevRevisionsLength = sampleState.revisions.length ∧
    revisionResetEffect (handleContentChange sampleState 2000 "z") =
      handleContentChange sampleState 2000 "z" :=
  ⟨by decide,
   ((revisionReset_spec grownState 0 "").1 (by decide)).1,
   by decide,
   (revisionReset_spec sampleState 2000 "z").2 (by decide)⟩

-- C6

theorem recordEdits_aux (edits : List (Nat × String)) :
    ∀ s : AppState, s.revisions ≠ [] →
      wellSpaced s.lastSaveTime edits = true →
      (recordEdits s edits).historyPast.length =
        s.historyPast.length + edits.length := by
  induction edits with
  | nil =>
    intro s hne hw
    simp [recordEdits]
  | cons e rest ih =>
    obtain ⟨t, c⟩ := e
    intro s hne hw
    simp only [wellSpaced, Bool.and_eq_true, decide_eq_true_eq] at hw
    obtain ⟨ht, hrest⟩ := hw
    obtain ⟨cur, hcur⟩ := currentRevision_isSome s hne
    rw [recordEdits, handleContentChange_push s t c cur hcur ht]
    rw [ih _ (by simp) (by simpa using hrest)]
    simp
    omega

/-- C6 counterexample: two edits whose timestamps are exactly 1000 ms
apart (2000 then 3000, starting from a last-save time of 0) produce only
one snapshot, because the source's guard is the strict
`now - lastSaveTime > 1000`; the claim's "including exactly 1000 ms"
fails. -/
theorem recordEdits_exact_spacing_cex :
    (recordEdits
        { revisions := [shortRev], suggestions := [],
          selectedSuggestions := [], error := none, historyPast := [],
          historyFuture := [], lastSaveTime := 0, prevRevisionsLength := 1 }
        [(2000, "b"), (3000, "d")]).historyPast.length ≠ 2 := by
  decide

/-- C6 amended: for every sequence of recorded edits whose timestamps are
spaced strictly more than 1000 ms apart (each measured from the running
last-snapshot time), the past stack grows by exactly one snapshot per
call; a single call strictly less than 1000 ms after the last snapshot
push does not grow the past stack while the live content is still
updated. -/
theorem recordEdits_throttle (s : AppState) (edits : List (Nat × String))
    (t : Nat) (c : String) (hne : s.revisions ≠ []) :
    (wellSpaced s.lastSaveTime edits = true →
      (recordEdits s edits).historyPast.length =
        s.historyPast.length + edits.length) ∧
    (t - s.lastSaveTime < 1000 →
      (handleContentChange s t c).historyPast = s.historyPast ∧
      (currentRevision (handleContentChange s t c)).map Revision.content =
        some c) := by
  constructor
  · exact recordEdits_aux edits s hne
  · intro ht
    obtain ⟨cur, hcur⟩ := currentRevision_isSome s hne
    have ht' : ¬ 1000 < t - s.lastSaveTime := by omega
    rw [handleContentChange_skip s t c cur hcur ht']
    refine ⟨rfl, ?_⟩
    rw [currentRevision_eq_getLast?]
    simp [List.getLast?_concat]

/-- Witness for the amended C6 at a concrete state: two well-spaced edits
grow the past stack by two, and a rapid edit leaves it unchanged. -/
theorem recordEdits_throttle_witness :
    sampleState.revisions ≠ [] ∧
    wellSpaced sampleState.lastSaveTime [(1500, "b"), (3000, "d")] = true ∧
    (recordEdits sampleState [(1500, "b"), (3000, "d")]).historyPast.length =
      sampleState.historyPast.length + 2 ∧
    400 - sampleState.lastSaveTime < 1000 ∧
    (handleContentChange sampleState 400 "e").historyPast =
      sampleState.historyPast :=
  ⟨by decide, by decide,
   (recordEdits_throttle sampleState [(1500, "b"), (3000, "d")] 400 "e"
      (by decide)).1 (by decide),
   by decide,
   ((recordEdits_throttle sampleState [(1500, "b"), (3000, "d")] 400 "e"
      (by decide)).2 (by decide)).1⟩
